import Mathlib

/-!
Shallow embedding of the scripting engine of the `unquantified` repository
(`src/web/scripts/engine.js`, `src/web/scripts/unquantified.ohm`,
`src/web/scripts/web-ui.js`): the typed value model, the semantic actions of
the ohm grammar, the statement evaluator with its variable environment, the
KVIN-based variable serialization, and the argument validation performed by
the `WebUi` command handlers.

JavaScript numbers that the engine manipulates are modelled as rationals
(`Rat`): every number the engine constructs comes from `parseInt`/`parseFloat`
on literal text, and the only number-theoretic test applied to them is
`Number.isInteger`, which is `Rat.den = 1` on this fragment.
-/

/-- Model of a luxon calendar `DateTime` as constructed by the engine
(`ScriptingEngine.createDate` and the `dateTime` semantic action): the engine
only ever sets year/month/day and hour/minute/second wall-clock fields, all
produced by `parseInt` on digit strings, so they are naturals. -/
structure LuxonDateTime where
  year : Nat
  month : Nat
  day : Nat
  hour : Nat
  minute : Nat
  second : Nat
deriving DecidableEq, Repr

/-- Payload of the `TimeParameter` class of `engine.js`: either a concrete
luxon `DateTime` or one of the sentinel keywords `"first" | "last" | "now"`
kept as a string. -/
inductive TimeParam where
  | date (d : LuxonDateTime)
  | keyword (s : String)
deriving DecidableEq, Repr

/-- The `Symbol` class of `engine.js`: a ticker string (or the keyword
`"all"`) plus the `separator` flag, which the constructor initializes
to `false`. -/
structure SymbolValue where
  value : String
  separator : Bool
deriving DecidableEq, Repr

/-- The `Parameter` class of `engine.js`: a name plus the seven-slot payload,
each slot nullable (`Option`). -/
structure Parameter where
  name : Option String
  value : Option Rat
  limit : Option Rat
  increment : Option Rat
  values : Option (List Rat)
  boolValue : Option Bool
  stringValue : Option String
deriving DecidableEq, Repr

/-- The value model of `engine.js`: one constructor per class that can appear
in a statement (`Numeric`, `Bool`, `TimeParameter`, `TimeFrame`, `Offset`,
`SymbolValue`, `SymbolArray`, `String`, `Parameters`, `Parameter`, `Variable`).
The ohm grammar only ever places `symbol` nodes inside a `SymbolArray`, so
its elements are `SymbolValue`s. -/
inductive Value where
  | numeric (v : Rat)
  | bool (b : Bool)
  | timeParameter (t : TimeParam)
  | timeFrame (v : Rat)
  | offset (off : Int) (unit : String)
  | symbol (s : SymbolValue)
  | symbolArray (elements : List SymbolValue)
  | str (s : String)
  | parameters (ps : List Parameter)
  | parameter (p : Parameter)
  | var (name : String)
deriving DecidableEq, Repr

/-- `engine.js`: `export const SECONDS_PER_DAY = 1440`. -/
def SECONDS_PER_DAY : Rat := 1440

/-- `x instanceof TimeParameter`. -/
def isTimeParameter : Value → Bool
  | .timeParameter _ => true
  | _ => false

/-- `x instanceof Offset`. -/
def isOffset : Value → Bool
  | .offset _ _ => true
  | _ => false

/-- `x instanceof TimeFrame`. -/
def isTimeFrame : Value → Bool
  | .timeFrame _ => true
  | _ => false

/-- `x instanceof SymbolValue`. -/
def isSymbol : Value → Bool
  | .symbol _ => true
  | _ => false

/-- `x instanceof String` (the value class of `engine.js`, not the JS
primitive). -/
def isStringValue : Value → Bool
  | .str _ => true
  | _ => false

/-- `x instanceof Parameters`. -/
def isParameters : Value → Bool
  | .parameters _ => true
  | _ => false

/-- Number of `TimeParameter`s in a list of values. -/
def timeParameterCount (vs : List Value) : Nat := vs.countP (fun v => isTimeParameter v)

/-- Number of `Offset`s in a list of values. -/
def offsetCount (vs : List Value) : Nat := vs.countP (fun v => isOffset v)

/-- `WebUi.validateFromTo` (`web-ui.js` lines 690-713): counts how many of
`{from, to}` are `TimeParameter`s and how many are `Offset`s, and throws iff
`dateTimeCount + offsetCount < 2 || dateTimeCount == 0`. Returns `true` when
the code does not throw. -/
def WebUi.validateFromTo (fromArg toArg : Value) : Bool :=
  let dateTimeCount := (if isTimeParameter fromArg then 1 else 0) + (if isTimeParameter toArg then 1 else 0)
  let offsetCnt := (if isOffset fromArg then 1 else 0) + (if isOffset toArg then 1 else 0)
  !(decide (dateTimeCount + offsetCnt < 2) || decide (dateTimeCount = 0))

/-- `WebUi.validateTimeFrame` (`web-ui.js` lines 715-724): throws iff the
argument is not a `TimeFrame`, or its value is `< 1`, or `> SECONDS_PER_DAY`,
or not an integer. Returns `true` when the code does not throw. -/
def WebUi.validateTimeFrame (timeFrame : Value) : Bool :=
  match timeFrame with
  | .timeFrame v => !(decide (v < 1) || decide (SECONDS_PER_DAY < v) || !(decide (v.den = 1)))
  | _ => false

/-- `WebUi.validateArgumentCount` (`web-ui.js` lines 672-676): throws iff
`callArguments.length < min || callArguments.length > max`. -/
def WebUi.validateArgumentCount (callArguments : List Value) (lo hi : Nat) : Bool :=
  !(decide (callArguments.length < lo) || decide (hi < callArguments.length))

/-- `WebUi.validateSymbols` (`web-ui.js` lines 678-688): accepts a
`SymbolArray` (whose elements, `SymbolValue`s by construction of the value model,
all pass the element check of the source) or a single `SymbolValue`; throws on
everything else. -/
def WebUi.validateSymbols (tickers : Value) : Bool :=
  match tickers with
  | .symbolArray _ => true
  | .symbol _ => true
  | _ => false

/- ### Semantic actions of the ohm grammar (`engine.js`, `unquantified.ohm`) -/

/-- The two separator tokens the `SeparatedSymbol` grammar rule admits:
`SeparatedSymbol = ("," | "|") symbol`. -/
inductive SeparatorToken where
  | comma
  | pipe
deriving DecidableEq, Repr

/-- The two unit suffixes the `timeFrame` grammar rule admits:
`timeFrame = nonZeroDigit digit* ("m" | "h")`. -/
inductive TimeFrameUnit where
  | m
  | h
deriving DecidableEq, Repr

/-- JavaScript `parseInt` on a string of decimal digits, with the digits given
as their numeric values. -/
def parseIntDigits (ds : List Nat) : Nat := ds.foldl (fun a d => 10 * a + d) 0

/-- The `symbol` semantic action (`engine.js` lines 639-642): builds a
`SymbolValue` whose constructor initializes `separator` to `false`. -/
def symbolAction (s : String) : SymbolValue := ⟨s, false⟩

/-- The `SeparatedSymbol` semantic action (`engine.js` lines 574-580):
evaluates its symbol and sets the `separator` flag iff the separator token
before it is `"|"`. -/
def separatedSymbolAction (separator : SeparatorToken) (s : String) : SymbolValue :=
  let output := symbolAction s
  if separator = .pipe then { output with separator := true } else output

/-- The `SymbolArray` semantic action (`engine.js` lines 569-573), over the
rule `SymbolArray = "[" symbol SeparatedSymbol* "]"`: the first symbol
followed by the separated ones. -/
def symbolArrayAction (first : String) (others : List (SeparatorToken × String)) : Value :=
  .symbolArray (symbolAction first :: others.map (fun p => separatedSymbolAction p.1 p.2))

/-- The `timeFrame` semantic action (`engine.js` lines 630-638), over the rule
`timeFrame = nonZeroDigit digit* ("m" | "h")`: `parseInt` of the digits,
multiplied by 60 when the unit is `"h"`. -/
def timeFrameAction (first : Nat) (others : List Nat) (unit : TimeFrameUnit) : Value :=
  let timeFrameInt := parseIntDigits (first :: others)
  let minutes := match unit with
    | .h => 60 * timeFrameInt
    | .m => timeFrameInt
  .timeFrame (minutes : Rat)

/-- `ScriptingEngine.createDate` (`engine.js` lines 765-773):
`luxon.DateTime.fromObject({year, month, day})`, whose time-of-day fields
default to zero. -/
def ScriptingEngine.createDate (year month day : Nat) : LuxonDateTime :=
  ⟨year, month, day, 0, 0, 0⟩

/-- The `date` semantic action (`engine.js` lines 597-607): a `TimeParameter`
holding `createDate` of the parsed fields. -/
def dateAction (year month day : Nat) : Value :=
  .timeParameter (.date (ScriptingEngine.createDate year month day))

/-- The `dateTime` semantic action (`engine.js` lines 608-623): evaluates the
date part, then `set`s hours/minutes/seconds on it (seconds default 0 handled
by the caller). -/
def dateTimeAction (date : LuxonDateTime) (hours minutes seconds : Nat) : Value :=
  .timeParameter (.date { date with hour := hours, minute := minutes, second := seconds })

/-- The `keyword` semantic action (`engine.js` lines 656-673). -/
def keywordAction : String → Option Value
  | "true" => some (.bool true)
  | "false" => some (.bool false)
  | "first" => some (.timeParameter (.keyword "first"))
  | "last" => some (.timeParameter (.keyword "last"))
  | "now" => some (.timeParameter (.keyword "now"))
  | "daily" => some (.timeFrame SECONDS_PER_DAY)
  | "all" => some (.symbol (symbolAction "all"))
  | _ => none

/- ### Statements, environment, and the statement evaluator (`engine.js`) -/

/-- A parsed statement (`Assignment` / `Call` classes of `engine.js`). -/
inductive Statement where
  | assignment (variableName : String) (value : Value)
  | call (name : String) (callArguments : List Value)
deriving DecidableEq, Repr

/-- The errors `ScriptingEngine.run` and its helpers throw. -/
inductive EngineError where
  | unknownCall (name : String)
  | unknownVariable (name : String)
  | handlerError (message : String)
deriving DecidableEq, Repr

/-- The `this.variables` object: a name-to-value store where a later binding
for a name shadows earlier ones (JS property overwrite is modelled by
prepending; `envGet` returns the most recent binding). -/
abbrev Env := List (String × Value)

/-- Property read `this.variables[name]`, `undefined` as `none`. -/
def envGet (env : Env) (name : String) : Option Value :=
  (env.find? (fun p => p.1 == name)).map (fun p => p.2)

/-- An externally supplied call handler: receives the resolved arguments and
either settles (`.ok`) or rejects (`.error`). -/
def Handler : Type := List Value → Except EngineError Unit

/-- The externally supplied `callHandlers` table. -/
abbrev HandlerTable := List (String × Handler)

/-- Property read `this.callHandlers[name]`. -/
def lookupHandler (handlers : HandlerTable) (name : String) : Option Handler :=
  (handlers.find? (fun p => p.1 == name)).map (fun p => p.2)

/-- The per-element body of `ScriptingEngine.substituteVariables` (`engine.js`
lines 750-763): a `Variable` is replaced by its environment value or throws
`Unknown variable`; every other value passes through unchanged. -/
def ScriptingEngine.substituteOne (env : Env) : Value → Except EngineError Value
  | .var name =>
    match envGet env name with
    | some v => .ok v
    | none => .error (.unknownVariable name)
  | v => .ok v

/-- `ScriptingEngine.substituteVariables` (`engine.js` lines 750-763): maps
`substituteOne` over the input, the first throw aborting the map. -/
def ScriptingEngine.substituteVariables (env : Env) : List Value → Except EngineError (List Value)
  | [] => .ok []
  | a :: rest =>
    match ScriptingEngine.substituteOne env a with
    | .error e => .error e
    | .ok b =>
      match ScriptingEngine.substituteVariables env rest with
      | .error e => .error e
      | .ok bs => .ok (b :: bs)

/-- One iteration of the statement loop of `ScriptingEngine.run` (`engine.js`
lines 725-739). For an `Assignment`: substitute variables in the singleton
value list and store element 0 under the variable name. For a `Call`: look
the handler up (throwing `Unknown call` when absent), then substitute
variables in the arguments, then `await` the handler. On success it returns
the updated environment together with the dispatched call, if any. -/
def ScriptingEngine.runStatement (handlers : HandlerTable) (env : Env) :
    Statement → Except EngineError (Env × Option (String × List Value))
  | .assignment x v =>
    match ScriptingEngine.substituteVariables env [v] with
    | .error e => .error e
    | .ok values => .ok ((x, values.headD v) :: env, none)
  | .call name callArguments =>
    match lookupHandler handlers name with
    | none => .error (.unknownCall name)
    | some handler =>
      match ScriptingEngine.substituteVariables env callArguments with
      | .error e => .error e
      | .ok resolved =>
        match handler resolved with
        | .ok _ => .ok (env, some (name, resolved))
        | .error e => .error e

/-- Result of a run: the environment when the loop stopped, the calls that
were dispatched to handlers (in order, with the resolved arguments each
handler received), and the error that aborted the run, if any. -/
structure RunResult where
  env : Env
  trace : List (String × List Value)
  error : Option EngineError
deriving DecidableEq, Repr

/-- The statement loop of `ScriptingEngine.run` (`engine.js` lines 718-740),
after a successful parse: statements execute strictly in order; the first
throw stops the loop, keeping the environment the earlier statements
produced. -/
def ScriptingEngine.run (handlers : HandlerTable) : List Statement → Env → RunResult
  | [], env => ⟨env, [], none⟩
  | s :: rest, env =>
    match ScriptingEngine.runStatement handlers env s with
    | .error e => ⟨env, [], some e⟩
    | .ok (env2, c) =>
      let r := ScriptingEngine.run handlers rest env2
      ⟨r.env, (match c with | none => r.trace | some call => call :: r.trace), r.error⟩

/- ### Variable serialization (`engine.js` initialization of KVIN, lines
692-716, and `serializeVariables` / `deserializeVariables`, lines 742-748) -/

/-- Zero-padded decimal rendering with exactly `w` digit characters (the
behaviour of the luxon format tokens `yyyy`, `MM`, `dd`, `HH`, `mm`, `ss` on
the field values the engine produces). -/
def natPad : Nat → Nat → List Char
  | 0, _ => []
  | w + 1, n => natPad w (n / 10) ++ [Char.ofNat (48 + n % 10)]

/-- Decimal reading of a digit-character run (how an ISO parser consumes a
fixed-width numeric field). -/
def readNat (cs : List Char) : Nat :=
  cs.foldl (fun a c => 10 * a + (c.toNat - 48)) 0

/-- `TimeParameter.toFormat` (`engine.js` lines 427-429):
`dateTime.toFormat("yyyy-MM-dd'T'HH:mm:ss")`, as the character list of the
produced text. The format has no zone token, so the output carries no
timezone designator. -/
def TimeParameter.toFormatChars (d : LuxonDateTime) : List Char :=
  natPad 4 d.year ++ '-' :: natPad 2 d.month ++ '-' :: natPad 2 d.day ++
    'T' :: natPad 2 d.hour ++ ':' :: natPad 2 d.minute ++ ':' :: natPad 2 d.second

/-- Model of `luxon.DateTime.fromISO` (used by the registered `DateTime`
deserializer, `engine.js` lines 712-715) on the fixed-width
`yyyy-MM-ddTHH:mm:ss` texts produced by `TimeParameter.toFormat`: the six
wall-clock fields are read off their positions; no zone designator is
consumed, so the value is placed in the restoring session's zone. -/
def luxonFromISO (cs : List Char) : LuxonDateTime :=
  { year := readNat (cs.take 4)
  , month := readNat ((cs.drop 5).take 2)
  , day := readNat ((cs.drop 8).take 2)
  , hour := readNat ((cs.drop 11).take 2)
  , minute := readNat ((cs.drop 14).take 2)
  , second := readNat ((cs.drop 17).take 2) }

/-- Whether an ISO-like timestamp text carries an explicit timezone
designator: a `Z`, or a `+`/`-` offset suffix after the date part (the first
ten characters `yyyy-MM-dd`, whose hyphens are date separators). -/
def hasZoneDesignator (cs : List Char) : Bool :=
  cs.contains 'Z' || (cs.drop 10).contains '+' || (cs.drop 10).contains '-'

/-- The serialized form of one value, as KVIN stores it: a constructor name
plus the marshalled payload. KVIN marshals any class instance under its
constructor's name, so even a `Parameters` value gets a stored form — but
`initializeSerialization` (`engine.js` lines 696-711) registers only
`Variable`, `Numeric`, `Bool`, `TimeParameter`, `TimeFrame`, `Offset`,
`Symbol`, `SymbolArray`, `String` and `Parameter` in `KVIN.userCtors`, so
the stored name `Parameters` has no registered constructor to rebuild from.
A concrete luxon `DateTime` is replaced, through the registered `toKVIN`
hook, by the single constructor argument `TimeParameter.toFormat(o)`. -/
inductive SerializedValue where
  | numeric (v : Rat)
  | bool (b : Bool)
  | tpDate (iso : List Char)
  | tpKeyword (s : String)
  | timeFrame (v : Rat)
  | offset (off : Int) (unit : String)
  | symbol (value : String) (separator : Bool)
  | symbolArray (elements : List (String × Bool))
  | str (s : String)
  | parameters (ps : List Parameter)
  | parameter (p : Parameter)
  | var (name : String)
deriving DecidableEq, Repr

/-- Serialization of one value (`KVIN.serialize` with the constructors and
the luxon `toKVIN` hook registered by the engine, `engine.js` lines
692-716). Marshalling records the constructor name and payload whether or
not the constructor is registered; registration only matters on restore. -/
def serializeValue : Value → SerializedValue
  | .numeric v => .numeric v
  | .bool b => .bool b
  | .timeParameter (.date d) => .tpDate (TimeParameter.toFormatChars d)
  | .timeParameter (.keyword s) => .tpKeyword s
  | .timeFrame v => .timeFrame v
  | .offset off unit => .offset off unit
  | .symbol s => .symbol s.value s.separator
  | .symbolArray elements => .symbolArray (elements.map (fun e => (e.value, e.separator)))
  | .str s => .str s
  | .parameters ps => .parameters ps
  | .parameter p => .parameter p
  | .var name => .var name

/-- Deserialization of one value (`KVIN.deserialize`). A stored `DateTime`
is rebuilt by the registered `KVIN.userCtors.DateTime`, which is
`luxon.DateTime.fromISO` on the stored text; each class registered in
`KVIN.userCtors` (`Variable`, `Numeric`, `Bool`, `TimeParameter`,
`TimeFrame`, `Offset`, `Symbol`, `SymbolArray`, `String`, `Parameter`) is
rebuilt field-by-field. The `Parameters` class is NOT registered
(`engine.js` lines 696-711 omit it), so KVIN has no constructor with which
to rebuild a `Parameters` instance equal to the original: that
reconstruction fails, modelled as `none`. -/
def deserializeValue : SerializedValue → Option Value
  | .numeric v => some (.numeric v)
  | .bool b => some (.bool b)
  | .tpDate iso => some (.timeParameter (.date (luxonFromISO iso)))
  | .tpKeyword s => some (.timeParameter (.keyword s))
  | .timeFrame v => some (.timeFrame v)
  | .offset off unit => some (.offset off unit)
  | .symbol value separator => some (.symbol ⟨value, separator⟩)
  | .symbolArray elements => some (.symbolArray (elements.map (fun e => ⟨e.1, e.2⟩)))
  | .str s => some (.str s)
  | .parameters _ => none
  | .parameter p => some (.parameter p)
  | .var name => some (.var name)

/-- `ScriptingEngine.serializeVariables` (`engine.js` lines 742-744):
`KVIN.serialize(this.variables)`, entry by entry. -/
def ScriptingEngine.serializeVariables (env : Env) : List (String × SerializedValue) :=
  env.map (fun p => (p.1, serializeValue p.2))

/-- `ScriptingEngine.deserializeVariables` (`engine.js` lines 746-748):
`KVIN.deserialize(data)`. Every entry is rebuilt through the registered
constructors; an entry whose stored constructor name has no registration
(a `Parameters` value) makes the whole restore fail, modelled as `none`. -/
def ScriptingEngine.deserializeVariables (data : List (String × SerializedValue)) :
    Option Env :=
  match data with
  | [] => some []
  | p :: rest =>
    match deserializeValue p.2 with
    | none => none
    | some v =>
      match ScriptingEngine.deserializeVariables rest with
      | none => none
      | some env => some ((p.1, v) :: env)

/-- The field ranges within which the fixed-width `yyyy-MM-dd'T'HH:mm:ss`
rendering is faithful: at most four year digits and two digits for every
other field. Every date the engine constructs satisfies this: the grammar
reads exactly four year digits and two digits per other field. -/
def dateFieldsInRange (d : LuxonDateTime) : Bool :=
  decide (d.year < 10000) && decide (d.month < 100) && decide (d.day < 100) &&
    decide (d.hour < 100) && decide (d.minute < 100) && decide (d.second < 100)

/-- Whether a value's concrete `TimeParameter` date, if any, is in
rendering range. -/
def valueDatesInRange : Value → Bool
  | .timeParameter (.date d) => dateFieldsInRange d
  | _ => true

/-- Whether a value restores through `KVIN.userCtors`: it is not an instance
of the unregistered `Parameters` class, and its concrete `TimeParameter`
date, if any, is in rendering range. -/
def valueRestorable (v : Value) : Bool :=
  !(isParameters v) && valueDatesInRange v

/-- Whether every value stored in the environment restores through
`KVIN.userCtors`. -/
def envRestorable (env : Env) : Bool :=
  env.all (fun p => valueRestorable p.2)

/- ### Command handlers of `web-ui.js`, up to the backend dispatch -/

/-- `WebUi.plot` (`web-ui.js` lines 593-616), up to the `getHistory` backend
call: arity check 1..4; a missing `from` defaults to the sentinel
`TimeParameter("first")`, a missing `to` to `TimeParameter("last")`, a
missing time frame to `TimeFrame(SECONDS_PER_DAY)`; the symbol argument, the
from/to pair and the time frame are then validated, in source order. On
success the result is the argument tuple the backend request is built
from. -/
def WebUi.plot (callArguments : List Value) (isCandlestick : Bool) :
    Except String (Value × Value × Value × Value) :=
  if !(WebUi.validateArgumentCount callArguments 1 4) then
    .error "Invalid number of arguments"
  else
    let symbolArgument := callArguments.getD 0 (.var "")
    let fromArg := callArguments.getD 1 (.timeParameter (.keyword "first"))
    let toArg := callArguments.getD 2 (.timeParameter (.keyword "last"))
    let timeFrame := callArguments.getD 3 (.timeFrame SECONDS_PER_DAY)
    if isCandlestick && !(isSymbol symbolArgument) then
      .error "Invalid symbol argument type"
    else if !isCandlestick && !(WebUi.validateSymbols symbolArgument) then
      .error "Invalid symbol argument type"
    else if !(WebUi.validateFromTo fromArg toArg) then
      .error "Invalid from/to parameter types"
    else if !(WebUi.validateTimeFrame timeFrame) then
      .error "Invalid time frame specified"
    else
      .ok (symbolArgument, fromArg, toArg, timeFrame)

/-- `WebUi.correlation` (`web-ui.js` lines 626-639), up to the
`getCorrelation` backend call: arity check 1..3; a missing `from` defaults to
`TimeParameter("first")`, a missing `to` to `TimeParameter("last")`; the
symbol argument and the from/to pair are then validated. -/
def WebUi.correlation (callArguments : List Value) :
    Except String (Value × Value × Value) :=
  if !(WebUi.validateArgumentCount callArguments 1 3) then
    .error "Invalid number of arguments"
  else
    let symbols := callArguments.getD 0 (.var "")
    let fromArg := callArguments.getD 1 (.timeParameter (.keyword "first"))
    let toArg := callArguments.getD 2 (.timeParameter (.keyword "last"))
    if !(WebUi.validateSymbols symbols) then
      .error "Invalid symbol argument type"
    else if !(WebUi.validateFromTo fromArg toArg) then
      .error "Invalid from/to parameter types"
    else
      .ok (symbols, fromArg, toArg)

/-- `WebUi.backtest` (`web-ui.js` lines 641-670), up to the `runBacktest`
backend call: arity check 4..6, so `strategy`, the symbol argument, `from`
and `to` are all required; missing `parameters` defaults to an empty
`Parameters`, and a missing time frame defaults to the `String` value
`"daily"` (not a `TimeFrame`); the strategy and time frame must be `String`s,
the parameters a `Parameters`, and the symbol argument and from/to pair are
validated as for the other commands. -/
def WebUi.backtest (callArguments : List Value) :
    Except String (Value × Value × Value × Value × Value × Value) :=
  if !(WebUi.validateArgumentCount callArguments 4 6) then
    .error "Invalid number of arguments"
  else
    let strategy := callArguments.getD 0 (.var "")
    let symbolArgument := callArguments.getD 1 (.var "")
    let fromArg := callArguments.getD 2 (.var "")
    let toArg := callArguments.getD 3 (.var "")
    let parameters := callArguments.getD 4 (.parameters [])
    let timeFrame := callArguments.getD 5 (.str "daily")
    if !(isStringValue strategy) then
      .error "Invalid strategy argument type"
    else if !(WebUi.validateSymbols symbolArgument) then
      .error "Invalid symbol argument type"
    else if !(WebUi.validateFromTo fromArg toArg) then
      .error "Invalid from/to parameter types"
    else if !(isParameters parameters) then
      .error "Invalid parameters argument type"
    else if !(isStringValue timeFrame) then
      .error "Invalid time frame argument type"
    else
      .ok (strategy, symbolArgument, fromArg, toArg, parameters, timeFrame)

/- ### Helper lemmas -/

/-- The elements of a `SymbolArray` value (empty for any other value). -/
def symbolArrayElements : Value → List SymbolValue
  | .symbolArray elements => elements
  | _ => []

/-- The value list a statement submits to `substituteVariables` when it
executes: the singleton right-hand side for an `Assignment`, the argument
list for a `Call`. -/
def statementValues : Statement → List Value
  | .assignment _ v => [v]
  | .call _ callArguments => callArguments

theorem separatedSymbolAction_eq (separator : SeparatorToken) (s : String) :
    separatedSymbolAction separator s = ⟨s, separator == SeparatorToken.pipe⟩ := by
  cases separator <;> rfl

theorem foldl_digits_lower (l : List Nat) (a : Nat) (h : 1 ≤ a) :
    1 ≤ l.foldl (fun a d => 10 * a + d) a := by
  induction l generalizing a with
  | nil => exact h
  | cons d l ih => exact ih (10 * a + d) (by omega)

theorem parseIntDigits_pos (first : Nat) (others : List Nat) (h : 1 ≤ first) :
    1 ≤ parseIntDigits (first :: others) := by
  have : (10 : Nat) * 0 + first = first := by omega
  simpa [parseIntDigits, this] using foldl_digits_lower others first h

/- ### Claims C1, C4 — composite argument validation -/

/-- Claim C1: time-range validation succeeds iff the number of
`TimeParameter`s plus the number of `Offset`s among `{from, to}` is at least
2 and the number of `TimeParameter`s is at least 1; in particular the pairs
(TimeParameter, TimeParameter), (TimeParameter, Offset) and
(Offset, TimeParameter) are accepted, (Offset, Offset) is rejected, and any
pair with fewer than 2 qualifying arguments is rejected. -/
theorem claim_c1_validateFromTo :
    (∀ fromArg toArg : Value,
      WebUi.validateFromTo fromArg toArg = true ↔
        2 ≤ timeParameterCount [fromArg, toArg] + offsetCount [fromArg, toArg] ∧
        1 ≤ timeParameterCount [fromArg, toArg]) ∧
    (∀ a b, WebUi.validateFromTo (.timeParameter a) (.timeParameter b) = true) ∧
    (∀ a o u, WebUi.validateFromTo (.timeParameter a) (.offset o u) = true) ∧
    (∀ a o u, WebUi.validateFromTo (.offset o u) (.timeParameter a) = true) ∧
    (∀ o u p w, WebUi.validateFromTo (.offset o u) (.offset p w) = false) ∧
    (∀ fromArg toArg : Value,
      timeParameterCount [fromArg, toArg] + offsetCount [fromArg, toArg] < 2 →
        WebUi.validateFromTo fromArg toArg = false) := by
  refine ⟨?_, fun a b => rfl, fun a o u => rfl, fun a o u => rfl, fun o u p w => rfl, ?_⟩
  · intro fromArg toArg
    cases fromArg <;> cases toArg <;>
      simp [WebUi.validateFromTo, timeParameterCount, offsetCount,
        isTimeParameter, isOffset, List.countP, List.countP.go]
  · intro fromArg toArg h
    cases fromArg <;> cases toArg <;>
      simp_all [WebUi.validateFromTo, timeParameterCount, offsetCount,
        isTimeParameter, isOffset, List.countP, List.countP.go]

/-- Claim C1 witness: a pair with zero qualifying arguments is rejected. -/
theorem claim_c1_validateFromTo_witness :
    timeParameterCount [Value.numeric 1, Value.numeric 2] +
      offsetCount [Value.numeric 1, Value.numeric 2] < 2 ∧
    WebUi.validateFromTo (Value.numeric 1) (Value.numeric 2) = false :=
  ⟨by decide, claim_c1_validateFromTo.2.2.2.2.2 (Value.numeric 1) (Value.numeric 2) (by decide)⟩

/-- Claim C4: time-frame validation succeeds iff the value is a `TimeFrame`
whose minute value is an integer in `[1, 1440]`; in particular the values
built from the literals `1441m` and `25h` are rejected. -/
theorem claim_c4_validateTimeFrame :
    (∀ v : Value, WebUi.validateTimeFrame v = true ↔
      ∃ n : ℤ, v = .timeFrame (n : ℚ) ∧ 1 ≤ n ∧ n ≤ 1440) ∧
    WebUi.validateTimeFrame (timeFrameAction 1 [4, 4, 1] .m) = false ∧
    WebUi.validateTimeFrame (timeFrameAction 2 [5] .h) = false := by
  refine ⟨?_,
    by norm_num [WebUi.validateTimeFrame, timeFrameAction, parseIntDigits, SECONDS_PER_DAY],
    by norm_num [WebUi.validateTimeFrame, timeFrameAction, parseIntDigits, SECONDS_PER_DAY]⟩
  intro v
  cases v with
  | timeFrame q =>
    simp only [WebUi.validateTimeFrame, SECONDS_PER_DAY, Bool.not_eq_true',
      Bool.or_eq_false_iff, decide_eq_false_iff_not, not_lt, Bool.not_eq_false',
      decide_eq_true_eq, Value.timeFrame.injEq]
    constructor
    · rintro ⟨⟨h1, h2⟩, hden⟩
      have hq : (q.num : ℚ) = q := (Rat.den_eq_one_iff q).mp hden
      refine ⟨q.num, hq.symm, ?_, ?_⟩
      · exact_mod_cast hq ▸ h1
      · exact_mod_cast hq ▸ h2
    · rintro ⟨n, rfl, hn1, hn2⟩
      refine ⟨⟨?_, ?_⟩, Rat.den_intCast n⟩
      · exact_mod_cast hn1
      · exact_mod_cast hn2
  | numeric v => simp [WebUi.validateTimeFrame]
  | bool b => simp [WebUi.validateTimeFrame]
  | timeParameter t => simp [WebUi.validateTimeFrame]
  | offset o u => simp [WebUi.validateTimeFrame]
  | symbol s => simp [WebUi.validateTimeFrame]
  | symbolArray es => simp [WebUi.validateTimeFrame]
  | str s => simp [WebUi.validateTimeFrame]
  | parameters ps => simp [WebUi.validateTimeFrame]
  | parameter p => simp [WebUi.validateTimeFrame]
  | var n => simp [WebUi.validateTimeFrame]

/- ### Claims C8, C10 — symbol arrays and separator flags -/

/-- Claim C8: in a parsed `SymbolArray`, an element preceded by the
emphasized separator `|` has its `separator` flag set to `true`, and every
other element (preceded by `,` or by no separator at all) has `separator =
false`; in particular `[ES, NQ | YM]` flags exactly `YM`. -/
theorem claim_c8_symbolArray_separators :
    (∀ (first : String) (others : List (SeparatorToken × String)),
      symbolArrayAction first others =
        .symbolArray (⟨first, false⟩ ::
          others.map (fun p => ⟨p.2, p.1 == SeparatorToken.pipe⟩))) ∧
    symbolArrayAction "ES" [(.comma, "NQ"), (.pipe, "YM")] =
      .symbolArray [⟨"ES", false⟩, ⟨"NQ", false⟩, ⟨"YM", true⟩] := by
  constructor
  · intro first others
    simp [symbolArrayAction, separatedSymbolAction_eq, symbolAction]
  · rfl

/-- Claim C10: every `Symbol` is constructed with `separator = false`, and in
every parsed `SymbolArray` the first element (which the grammar admits no
separator token before) has `separator = false`. -/
theorem claim_c10_first_element_separator :
    (∀ s, (symbolAction s).separator = false) ∧
    (∀ (first : String) (others : List (SeparatorToken × String)),
      (symbolArrayElements (symbolArrayAction first others)).head? =
        some ⟨first, false⟩) :=
  ⟨fun s => rfl, fun first others => rfl⟩

/- ### Claim C3 — the TimeFrame construction bound -/

/-- Claim C3 counterexample: the literal `1441m` is parsed by the engine into
the value `TimeFrame(1441)`, an assignment binds it into the environment
before any command validation runs, and `1441` violates the claimed invariant
`1 ≤ minutes ≤ 1440`. -/
theorem claim_c3_counterexample :
    timeFrameAction 1 [4, 4, 1] .m = .timeFrame 1441 ∧
    envGet (ScriptingEngine.run []
        [.assignment "t" (timeFrameAction 1 [4, 4, 1] .m)] []).env "t" =
      some (.timeFrame 1441) ∧
    ¬((1 : ℚ) ≤ 1441 ∧ (1441 : ℚ) ≤ 1440) := by
  refine ⟨by decide, by decide, ?_⟩
  rintro ⟨-, h⟩
  exact absurd h (by decide)

/-- Claim C3 (amended): every `TimeFrame` the engine constructs — from a
minute literal `Nm` (value `N`), an hour literal `Nh` (value `60·N`), or the
keyword `daily` (value 1440) — has an integer minute value with `1 ≤
minutes`; the upper bound 1440 is not an invariant of construction (literals
such as `1441m` exceed it) and is enforced only when a command validates the
value via `WebUi.validateTimeFrame`. -/
theorem claim_c3_amended (first : Nat) (others : List Nat) (unit : TimeFrameUnit)
    (hfirst : 1 ≤ first) :
    (∃ m : Nat, timeFrameAction first others unit = .timeFrame (m : ℚ) ∧ 1 ≤ m) ∧
    keywordAction "daily" = some (.timeFrame 1440) ∧
    (∀ tf : ℚ, WebUi.validateTimeFrame (.timeFrame tf) = true → 1 ≤ tf ∧ tf ≤ 1440) := by
  refine ⟨?_, by decide, ?_⟩
  · cases unit with
    | m =>
      exact ⟨parseIntDigits (first :: others), by simp [timeFrameAction],
        parseIntDigits_pos first others hfirst⟩
    | h =>
      refine ⟨60 * parseIntDigits (first :: others), by simp [timeFrameAction], ?_⟩
      have := parseIntDigits_pos first others hfirst
      omega
  · intro tf h
    simp only [WebUi.validateTimeFrame, SECONDS_PER_DAY, Bool.not_eq_true',
      Bool.or_eq_false_iff, decide_eq_false_iff_not, not_lt] at h
    exact ⟨h.1.1, h.1.2⟩

/-- Claim C3 witness: the literal `30m` yields a `TimeFrame` with minute
value at least 1. -/
theorem claim_c3_amended_witness :
    1 ≤ 3 ∧
    ((∃ m : Nat, timeFrameAction 3 [0] .m = .timeFrame (m : ℚ) ∧ 1 ≤ m) ∧
      keywordAction "daily" = some (.timeFrame 1440) ∧
      (∀ tf : ℚ, WebUi.validateTimeFrame (.timeFrame tf) = true → 1 ≤ tf ∧ tf ≤ 1440)) :=
  ⟨by decide, claim_c3_amended 3 [0] .m (by decide)⟩

/- ### Claim C9 — defaults for missing optional trailing arguments -/

/-- Claim C9 counterexample: a `backtest` call with its time-frame argument
missing defaults it to the `String` value `"daily"`, which is passed through
to the backend as a string — not to a `TimeFrame` of 1440 minutes as the
claim states for every command. -/
theorem claim_c9_counterexample :
    WebUi.backtest [Value.str "strat", .symbol ⟨"ES", false⟩,
        .timeParameter (.keyword "first"), .timeParameter (.keyword "last"),
        .parameters []] =
      .ok (.str "strat", .symbol ⟨"ES", false⟩, .timeParameter (.keyword "first"),
        .timeParameter (.keyword "last"), .parameters [], .str "daily") ∧
    (Value.str "daily") ≠ (.timeFrame 1440) :=
  ⟨rfl, by decide⟩

/-- Claim C9 (amended): for `plot`/`candle` a missing `from` defaults to the
sentinel `TimeParameter("first")`, a missing `to` to `TimeParameter("last")`
and a missing time frame to `TimeFrame(1440)`; for `correlation` a missing
`from`/`to` defaults the same way (it takes no time-frame argument); for
`backtest`, `from` and `to` are required (arity at least 4), a missing
parameters argument defaults to an empty `Parameters`, and a missing time
frame defaults to the `String` `"daily"`, not to a `TimeFrame`. All defaults
are applied by the handler before validation and before the backend
dispatch: the validated tuple the backend request is built from contains
the defaulted values. -/
theorem claim_c9_defaults
    (callArguments : List Value) (isCandlestick : Bool) :
    (∀ s f t tf, WebUi.plot callArguments isCandlestick = .ok (s, f, t, tf) →
      (callArguments.length ≤ 1 → f = .timeParameter (.keyword "first")) ∧
      (callArguments.length ≤ 2 → t = .timeParameter (.keyword "last")) ∧
      (callArguments.length ≤ 3 → tf = .timeFrame 1440) ∧
      WebUi.validateFromTo f t = true ∧ WebUi.validateTimeFrame tf = true) ∧
    (∀ s f t, WebUi.correlation callArguments = .ok (s, f, t) →
      (callArguments.length ≤ 1 → f = .timeParameter (.keyword "first")) ∧
      (callArguments.length ≤ 2 → t = .timeParameter (.keyword "last")) ∧
      WebUi.validateFromTo f t = true) ∧
    (∀ st sy f t ps tf, WebUi.backtest callArguments = .ok (st, sy, f, t, ps, tf) →
      4 ≤ callArguments.length ∧
      (callArguments.length ≤ 4 → ps = .parameters []) ∧
      (callArguments.length ≤ 5 → tf = .str "daily")) := by
  refine ⟨?_, ?_, ?_⟩
  · intro s f t tf h
    unfold WebUi.plot at h
    split at h
    · exact absurd h (by simp)
    · simp only [] at h
      split at h
      · exact absurd h (by simp)
      · split at h
        · exact absurd h (by simp)
        · split at h
          · exact absurd h (by simp)
          · split at h
            · exact absurd h (by simp)
            · rename_i hcount hsym1 hsym2 hft htf
              obtain ⟨rfl, rfl, rfl, rfl⟩ :
                  s = callArguments.getD 0 (.var "") ∧
                  f = callArguments.getD 1 (.timeParameter (.keyword "first")) ∧
                  t = callArguments.getD 2 (.timeParameter (.keyword "last")) ∧
                  tf = callArguments.getD 3 (.timeFrame SECONDS_PER_DAY) := by
                have := h
                simp only [Except.ok.injEq, Prod.mk.injEq] at this
                exact ⟨this.1.symm, this.2.1.symm, this.2.2.1.symm, this.2.2.2.symm⟩
              refine ⟨?_, ?_, ?_, ?_, ?_⟩
              · intro hlen; exact List.getD_eq_default _ _ hlen
              · intro hlen; exact List.getD_eq_default _ _ hlen
              · intro hlen; exact List.getD_eq_default _ _ hlen
              · simpa using hft
              · simpa using htf
  · intro s f t h
    unfold WebUi.correlation at h
    split at h
    · exact absurd h (by simp)
    · simp only [] at h
      split at h
      · exact absurd h (by simp)
      · split at h
        · exact absurd h (by simp)
        · rename_i hcount hsym hft
          obtain ⟨rfl, rfl, rfl⟩ :
              s = callArguments.getD 0 (.var "") ∧
              f = callArguments.getD 1 (.timeParameter (.keyword "first")) ∧
              t = callArguments.getD 2 (.timeParameter (.keyword "last")) := by
            have := h
            simp only [Except.ok.injEq, Prod.mk.injEq] at this
            exact ⟨this.1.symm, this.2.1.symm, this.2.2.symm⟩
          refine ⟨?_, ?_, ?_⟩
          · intro hlen; exact List.getD_eq_default _ _ hlen
          · intro hlen; exact List.getD_eq_default _ _ hlen
          · simpa using hft
  · intro st sy f t ps tf h
    unfold WebUi.backtest at h
    split at h
    · exact absurd h (by simp)
    · simp only [] at h
      split at h
      · exact absurd h (by simp)
      · split at h
        · exact absurd h (by simp)
        · split at h
          · exact absurd h (by simp)
          · split at h
            · exact absurd h (by simp)
            · split at h
              · exact absurd h (by simp)
              · rename_i hcount hstrat hsym hft hps htf
                obtain ⟨-, -, -, -, rfl, rfl⟩ :
                    st = callArguments.getD 0 (.var "") ∧
                    sy = callArguments.getD 1 (.var "") ∧
                    f = callArguments.getD 2 (.var "") ∧
                    t = callArguments.getD 3 (.var "") ∧
                    ps = callArguments.getD 4 (.parameters []) ∧
                    tf = callArguments.getD 5 (.str "daily") := by
                  have := h
                  simp only [Except.ok.injEq, Prod.mk.injEq] at this
                  exact ⟨this.1.symm, this.2.1.symm, this.2.2.1.symm,
                    this.2.2.2.1.symm, this.2.2.2.2.1.symm, this.2.2.2.2.2.symm⟩
                refine ⟨?_, ?_, ?_⟩
                · simp only [WebUi.validateArgumentCount, Bool.not_eq_true',
                    Bool.not_eq_false, Bool.or_eq_false_iff,
                    decide_eq_false_iff_not, not_lt] at hcount
                  exact hcount.1
                · intro hlen; exact List.getD_eq_default _ _ hlen
                · intro hlen; exact List.getD_eq_default _ _ hlen

/-- Claim C9 witness: a one-argument `plot` call gets `from = first`,
`to = last` and `timeFrame = TimeFrame(1440)`. -/
theorem claim_c9_defaults_witness :
    WebUi.plot [Value.symbol ⟨"ES", false⟩] false =
      .ok (.symbol ⟨"ES", false⟩, .timeParameter (.keyword "first"),
        .timeParameter (.keyword "last"), .timeFrame SECONDS_PER_DAY) ∧
    Value.timeParameter (.keyword "first") = .timeParameter (.keyword "first") :=
  ⟨rfl,
    ((claim_c9_defaults [Value.symbol ⟨"ES", false⟩] false).1
      (.symbol ⟨"ES", false⟩) (.timeParameter (.keyword "first"))
      (.timeParameter (.keyword "last")) (.timeFrame SECONDS_PER_DAY) rfl).1
      (by decide)⟩

/- ### Helper lemmas about the statement evaluator -/

theorem envGet_cons_self (x : String) (v : Value) (env : Env) :
    envGet ((x, v) :: env) x = some v := by
  simp [envGet]

theorem envGet_cons_ne (x y : String) (v : Value) (env : Env) (h : y ≠ x) :
    envGet ((y, v) :: env) x = envGet env x := by
  simp [envGet, List.find?_cons, h]

theorem substituteOne_not_var (env : Env) (v : Value) (h : ∀ n, v ≠ .var n) :
    ScriptingEngine.substituteOne env v = .ok v := by
  cases v <;> first | rfl | exact absurd rfl (h _)

theorem substituteOne_error (env : Env) (a : Value) (e : EngineError)
    (h : ScriptingEngine.substituteOne env a = .error e) :
    ∃ n, a = .var n ∧ envGet env n = none ∧ e = .unknownVariable n := by
  cases a <;> simp [ScriptingEngine.substituteOne] at h
  case var n =>
    cases hn : envGet env n with
    | some v => simp [hn] at h
    | none =>
      simp [hn] at h
      exact ⟨n, rfl, hn, h.symm⟩

theorem substituteVariables_ok_forall₂ (env : Env) (l r : List Value)
    (h : ScriptingEngine.substituteVariables env l = .ok r) :
    List.Forall₂ (fun a b => ScriptingEngine.substituteOne env a = .ok b) l r := by
  induction l generalizing r with
  | nil =>
    simp [ScriptingEngine.substituteVariables] at h
    subst h
    exact .nil
  | cons a rest ih =>
    rw [ScriptingEngine.substituteVariables] at h
    cases h1 : ScriptingEngine.substituteOne env a with
    | error e => rw [h1] at h; cases h
    | ok b =>
      rw [h1] at h
      cases h2 : ScriptingEngine.substituteVariables env rest with
      | error e => rw [h2] at h; cases h
      | ok bs =>
        rw [h2] at h
        cases h
        exact .cons h1 (ih bs h2)

theorem substituteVariables_error (env : Env) (l : List Value) (e : EngineError)
    (h : ScriptingEngine.substituteVariables env l = .error e) :
    ∃ n, e = .unknownVariable n ∧ envGet env n = none := by
  induction l with
  | nil => simp [ScriptingEngine.substituteVariables] at h
  | cons a rest ih =>
    rw [ScriptingEngine.substituteVariables] at h
    cases h1 : ScriptingEngine.substituteOne env a with
    | error e1 =>
      rw [h1] at h
      cases h
      obtain ⟨n, -, hn, he⟩ := substituteOne_error env a e h1
      exact ⟨n, he, hn⟩
    | ok b =>
      rw [h1] at h
      cases h2 : ScriptingEngine.substituteVariables env rest with
      | error e2 =>
        rw [h2] at h
        cases h
        exact ih h2
      | ok bs => rw [h2] at h; cases h

theorem substituteVariables_mem_error (env : Env) (l : List Value) (n : String)
    (hmem : Value.var n ∈ l) (hn : envGet env n = none) :
    ∃ e, ScriptingEngine.substituteVariables env l = .error e := by
  induction l with
  | nil => cases hmem
  | cons a rest ih =>
    rw [ScriptingEngine.substituteVariables]
    cases h1 : ScriptingEngine.substituteOne env a with
    | error e => exact ⟨e, rfl⟩
    | ok b =>
      rcases List.mem_cons.mp hmem with rfl | hmem2
      · rw [ScriptingEngine.substituteOne, hn] at h1
        cases h1
      · obtain ⟨e, he⟩ := ih hmem2
        rw [he]
        exact ⟨e, rfl⟩

theorem run_append (handlers : HandlerTable) (a b : List Statement) (env : Env) :
    ScriptingEngine.run handlers (a ++ b) env =
      match (ScriptingEngine.run handlers a env).error with
      | some _ => ScriptingEngine.run handlers a env
      | none =>
        ⟨(ScriptingEngine.run handlers b (ScriptingEngine.run handlers a env).env).env,
          (ScriptingEngine.run handlers a env).trace ++
            (ScriptingEngine.run handlers b (ScriptingEngine.run handlers a env).env).trace,
          (ScriptingEngine.run handlers b (ScriptingEngine.run handlers a env).env).error⟩ := by
  induction a generalizing env with
  | nil => simp [ScriptingEngine.run]
  | cons s rest ih =>
    rw [List.cons_append, ScriptingEngine.run, ScriptingEngine.run]
    cases hs : ScriptingEngine.runStatement handlers env s with
    | error e => rfl
    | ok p =>
      obtain ⟨env2, c⟩ := p
      simp only []
      rw [ih env2]
      cases h2 : (ScriptingEngine.run handlers rest env2).error with
      | none => cases c <;> simp [h2]
      | some e => cases c <;> simp [h2]

theorem envGet_run_no_assign (handlers : HandlerTable) (l : List Statement)
    (env : Env) (x : String) (h : ∀ w, Statement.assignment x w ∉ l) :
    envGet (ScriptingEngine.run handlers l env).env x = envGet env x := by
  induction l generalizing env with
  | nil => rfl
  | cons s rest ih =>
    rw [ScriptingEngine.run]
    cases hs : ScriptingEngine.runStatement handlers env s with
    | error e => rfl
    | ok p =>
      obtain ⟨env2, c⟩ := p
      have hrest : ∀ w, Statement.assignment x w ∉ rest := by
        intro w hw
        exact h w (List.mem_cons_of_mem _ hw)
      have henv2 : envGet env2 x = envGet env x := by
        cases s with
        | assignment y v =>
          rw [ScriptingEngine.runStatement] at hs
          cases hsub : ScriptingEngine.substituteVariables env [v] with
          | error e => rw [hsub] at hs; cases hs
          | ok values =>
            rw [hsub] at hs
            cases hs
            have hyx : y ≠ x := by
              intro heq
              subst heq
              exact h v (List.mem_cons_self _ _)
            exact envGet_cons_ne x y _ env hyx
        | call name args =>
          rw [ScriptingEngine.runStatement] at hs
          cases hlook : lookupHandler handlers name with
          | none => simp only [hlook] at hs; cases hs
          | some handler =>
            simp only [hlook] at hs
            cases hsub : ScriptingEngine.substituteVariables env args with
            | error e => simp only [hsub] at hs; cases hs
            | ok resolved =>
              simp only [hsub] at hs
              cases hh : handler resolved with
              | ok u => simp only [hh] at hs; cases hs; rfl
              | error e => simp only [hh] at hs; cases hs
      rw [ih env2 hrest, henv2]

theorem run_env_after_assignment (handlers : HandlerTable) (env : Env)
    (x : String) (v : Value) (p : List Statement) (hv : ∀ n, v ≠ .var n) :
    ScriptingEngine.run handlers (Statement.assignment x v :: p) env =
      ScriptingEngine.run handlers p ((x, v) :: env) := by
  have hsub : ScriptingEngine.substituteVariables env [v] = .ok [v] := by
    rw [ScriptingEngine.substituteVariables, substituteOne_not_var env v hv,
      ScriptingEngine.substituteVariables]
  have hstep : ScriptingEngine.runStatement handlers env (.assignment x v) =
      .ok ((x, v) :: env, none) := by
    rw [ScriptingEngine.runStatement, hsub]
    rfl
  rw [ScriptingEngine.run, hstep]

theorem run_prefix_error_none (handlers : HandlerTable) (a b : List Statement)
    (env : Env) (h : (ScriptingEngine.run handlers (a ++ b) env).error = none) :
    (ScriptingEngine.run handlers a env).error = none := by
  rcases he : (ScriptingEngine.run handlers a env).error with _ | e
  · rfl
  · rw [run_append] at h
    simp only [he] at h
    exact h

theorem run_stops (handlers : HandlerTable) (env₀ : Env)
    (pre post : List Statement) (s : Statement) (e : EngineError)
    (hpre : (ScriptingEngine.run handlers pre env₀).error = none)
    (hs : ScriptingEngine.runStatement handlers
        (ScriptingEngine.run handlers pre env₀).env s = .error e) :
    ScriptingEngine.run handlers (pre ++ s :: post) env₀ =
      ⟨(ScriptingEngine.run handlers pre env₀).env,
        (ScriptingEngine.run handlers pre env₀).trace, some e⟩ := by
  rw [run_append]
  simp only [hpre]
  rw [ScriptingEngine.run, hs]
  simp

/- ### Claim C5 — a failing statement stops the run, keeping prior effects -/

/-- Claim C5: when the statements before `s` all succeed and `s` itself fails
(unknown command, unresolved variable, or handler rejection — all the ways
`runStatement` can produce an error), the run stops at `s`: the result
carries `s`'s error, the environment is exactly the one the preceding
statements produced (prior assignments kept, no rollback), and no statement
after `s` is executed (the dispatch trace is that of the prefix alone). -/
theorem claim_c5_failure_stops_run (handlers : HandlerTable) (env₀ : Env)
    (pre post : List Statement) (s : Statement) (e : EngineError)
    (hpre : (ScriptingEngine.run handlers pre env₀).error = none)
    (hs : ScriptingEngine.runStatement handlers
        (ScriptingEngine.run handlers pre env₀).env s = .error e) :
    ScriptingEngine.run handlers (pre ++ s :: post) env₀ =
      ⟨(ScriptingEngine.run handlers pre env₀).env,
        (ScriptingEngine.run handlers pre env₀).trace, some e⟩ :=
  run_stops handlers env₀ pre post s e hpre hs

/-- Claim C5 witness: an assignment, then an unknown command, then another
assignment — the run stops at the unknown command, the first assignment
stays in the environment, and the trailing assignment never executes. -/
theorem claim_c5_failure_stops_run_witness :
    (ScriptingEngine.run [] [Statement.assignment "a" (.numeric 1)] []).error = none ∧
    ScriptingEngine.run []
        ([Statement.assignment "a" (.numeric 1)] ++
          Statement.call "missing" [] :: [Statement.assignment "b" (.numeric 2)]) [] =
      ⟨(ScriptingEngine.run [] [Statement.assignment "a" (.numeric 1)] []).env,
        (ScriptingEngine.run [] [Statement.assignment "a" (.numeric 1)] []).trace,
        some (.unknownCall "missing")⟩ :=
  ⟨rfl,
    claim_c5_failure_stops_run [] [] [Statement.assignment "a" (.numeric 1)]
      [Statement.assignment "b" (.numeric 2)] (Statement.call "missing" [])
      (.unknownCall "missing") rfl rfl⟩

/- ### Claim C6 — later statements observe the latest prior assignment -/

/-- Claim C6: if an assignment binds `$x` to `v`, no later statement before
the final call reassigns `$x`, and the whole script runs without error, then
at the final call the environment still maps `x` to `v`; substitution
happens before the handler is dispatched — the dispatched call recorded in
the trace carries the substituted argument list, in which every occurrence
of `Variable x` has been replaced by `v`. -/
theorem claim_c6_latest_assignment_observed (handlers : HandlerTable) (env₀ : Env)
    (p₁ p₂ : List Statement) (x : String) (v : Value)
    (c : String) (args resolved : List Value) (handler : Handler)
    (hv : ∀ n, v ≠ .var n)
    (hp₂ : ∀ w, Statement.assignment x w ∉ p₂)
    (hrun : (ScriptingEngine.run handlers
        (p₁ ++ Statement.assignment x v :: p₂) env₀).error = none)
    (hlook : lookupHandler handlers c = some handler)
    (hsub : ScriptingEngine.substituteVariables
        (ScriptingEngine.run handlers (p₁ ++ Statement.assignment x v :: p₂) env₀).env
        args = .ok resolved)
    (hcall : handler resolved = .ok ()) :
    envGet (ScriptingEngine.run handlers
        (p₁ ++ Statement.assignment x v :: p₂) env₀).env x = some v ∧
    ScriptingEngine.run handlers
        ((p₁ ++ Statement.assignment x v :: p₂) ++ [Statement.call c args]) env₀ =
      ⟨(ScriptingEngine.run handlers (p₁ ++ Statement.assignment x v :: p₂) env₀).env,
        (ScriptingEngine.run handlers (p₁ ++ Statement.assignment x v :: p₂) env₀).trace
          ++ [(c, resolved)],
        none⟩ ∧
    List.Forall₂ (fun a b => a = Value.var x → b = v) args resolved := by
  have h1 : (ScriptingEngine.run handlers p₁ env₀).error = none :=
    run_prefix_error_none handlers p₁ (Statement.assignment x v :: p₂) env₀ hrun
  have hLfull := run_append handlers p₁ (Statement.assignment x v :: p₂) env₀
  simp only [h1] at hLfull
  rw [run_env_after_assignment handlers _ x v p₂ hv] at hLfull
  have hget : envGet (ScriptingEngine.run handlers
      (p₁ ++ Statement.assignment x v :: p₂) env₀).env x = some v := by
    rw [hLfull]
    exact (envGet_run_no_assign handlers p₂
      ((x, v) :: (ScriptingEngine.run handlers p₁ env₀).env) x hp₂).trans
      (envGet_cons_self x v _)
  refine ⟨hget, ?_, ?_⟩
  · have hstep : ScriptingEngine.runStatement handlers
        (ScriptingEngine.run handlers (p₁ ++ Statement.assignment x v :: p₂) env₀).env
        (.call c args) = .ok
          ((ScriptingEngine.run handlers (p₁ ++ Statement.assignment x v :: p₂) env₀).env,
            some (c, resolved)) := by
      simp only [ScriptingEngine.runStatement, hlook, hsub, hcall]
    have hcallrun : ScriptingEngine.run handlers [Statement.call c args]
        (ScriptingEngine.run handlers (p₁ ++ Statement.assignment x v :: p₂) env₀).env =
        ⟨(ScriptingEngine.run handlers (p₁ ++ Statement.assignment x v :: p₂) env₀).env,
          [(c, resolved)], none⟩ := by
      rw [ScriptingEngine.run, hstep]
      rfl
    have hfull := run_append handlers (p₁ ++ Statement.assignment x v :: p₂)
      [Statement.call c args] env₀
    simp only [hrun] at hfull
    rw [hcallrun] at hfull
    exact hfull
  · refine (substituteVariables_ok_forall₂ _ args resolved hsub).imp ?_
    intro a b hab ha
    subst ha
    simp only [ScriptingEngine.substituteOne, hget] at hab
    cases hab
    rfl

/-- Claim C6 witness: `$t = 30m` then `plot ES, $t` dispatches the handler
with `$t` resolved to the assigned time frame. -/
theorem claim_c6_latest_assignment_observed_witness :
    envGet (ScriptingEngine.run [("plot", fun _ => .ok ())]
        ([] ++ Statement.assignment "t" (.timeFrame 30) :: []) []).env "t" =
      some (.timeFrame 30) ∧
    ScriptingEngine.run [("plot", fun _ => .ok ())]
        (([] ++ Statement.assignment "t" (.timeFrame 30) :: []) ++
          [Statement.call "plot" [.symbol ⟨"ES", false⟩, .var "t"]]) [] =
      ⟨(ScriptingEngine.run [("plot", fun _ => .ok ())]
          ([] ++ Statement.assignment "t" (.timeFrame 30) :: []) []).env,
        (ScriptingEngine.run [("plot", fun _ => .ok ())]
          ([] ++ Statement.assignment "t" (.timeFrame 30) :: []) []).trace ++
          [("plot", [.symbol ⟨"ES", false⟩, .timeFrame 30])],
        none⟩ ∧
    List.Forall₂ (fun a b => a = Value.var "t" → b = .timeFrame 30)
      [Value.symbol ⟨"ES", false⟩, Value.var "t"]
      [Value.symbol ⟨"ES", false⟩, Value.timeFrame 30] :=
  claim_c6_latest_assignment_observed [("plot", fun _ => .ok ())] [] [] []
    "t" (.timeFrame 30) "plot" [.symbol ⟨"ES", false⟩, .var "t"]
    [.symbol ⟨"ES", false⟩, .timeFrame 30] (fun _ => .ok ())
    (fun n h => Value.noConfusion h) (fun w h => by cases h) rfl rfl rfl rfl

/- ### Claim C7 — unresolved variables fail the run -/

/-- Claim C7 counterexample: the statement `nope $x`, with `$x` unassigned
and `nope` not a registered command, references a variable with no prior
assignment, yet the run fails with the UnknownCommand error (handler lookup
precedes variable substitution in `ScriptingEngine.run`), not with an
UnknownVariable error as the claim requires for every such statement. -/
theorem claim_c7_counterexample :
    ScriptingEngine.run [] [Statement.call "nope" [Value.var "x"]] [] =
      ⟨[], [], some (.unknownCall "nope")⟩ ∧
    ∀ n, EngineError.unknownCall "nope" ≠ .unknownVariable n :=
  ⟨rfl, fun n h => EngineError.noConfusion h⟩

/-- Claim C7 (amended): a statement referencing a variable with no binding in
the current environment (no prior assignment, nothing restored) fails the
whole run at that statement, leaving the prefix environment and trace
intact and never substituting a default; the error is UnknownVariable —
except when the statement is a `Call` whose command is itself absent from
the handler table, in which case the handler lookup, which precedes
substitution, reports UnknownCommand instead. -/
theorem claim_c7_unknown_variable (handlers : HandlerTable) (env₀ : Env)
    (pre post : List Statement) (s : Statement)
    (hpre : (ScriptingEngine.run handlers pre env₀).error = none)
    (href : ∃ n, Value.var n ∈ statementValues s ∧
      envGet (ScriptingEngine.run handlers pre env₀).env n = none) :
    ∃ e, ScriptingEngine.run handlers (pre ++ s :: post) env₀ =
        ⟨(ScriptingEngine.run handlers pre env₀).env,
          (ScriptingEngine.run handlers pre env₀).trace, some e⟩ ∧
      ((∃ n, e = .unknownVariable n ∧
          envGet (ScriptingEngine.run handlers pre env₀).env n = none) ∨
        ∃ cname cargs, s = .call cname cargs ∧
          lookupHandler handlers cname = none ∧ e = .unknownCall cname) := by
  obtain ⟨n, hmem, hn⟩ := href
  cases s with
  | assignment y v =>
    have hv : v = Value.var n := by
      have := hmem
      simp only [statementValues, List.mem_singleton] at this
      exact this.symm
    subst hv
    have hsub : ScriptingEngine.substituteVariables
        (ScriptingEngine.run handlers pre env₀).env [Value.var n] =
        .error (.unknownVariable n) := by
      rw [ScriptingEngine.substituteVariables]
      simp only [ScriptingEngine.substituteOne, hn]
    have hstep : ScriptingEngine.runStatement handlers
        (ScriptingEngine.run handlers pre env₀).env (.assignment y (.var n)) =
        .error (.unknownVariable n) := by
      rw [ScriptingEngine.runStatement, hsub]
    exact ⟨.unknownVariable n,
      run_stops handlers env₀ pre post _ _ hpre hstep, Or.inl ⟨n, rfl, hn⟩⟩
  | call cname cargs =>
    have hmem2 : Value.var n ∈ cargs := by simpa [statementValues] using hmem
    cases hlook : lookupHandler handlers cname with
    | none =>
      have hstep : ScriptingEngine.runStatement handlers
          (ScriptingEngine.run handlers pre env₀).env (.call cname cargs) =
          .error (.unknownCall cname) := by
        simp only [ScriptingEngine.runStatement, hlook]
      exact ⟨.unknownCall cname,
        run_stops handlers env₀ pre post _ _ hpre hstep,
        Or.inr ⟨cname, cargs, rfl, hlook, rfl⟩⟩
    | some handler =>
      obtain ⟨e, he⟩ := substituteVariables_mem_error _ cargs n hmem2 hn
      obtain ⟨m, hm, hmget⟩ := substituteVariables_error _ cargs e he
      have hstep : ScriptingEngine.runStatement handlers
          (ScriptingEngine.run handlers pre env₀).env (.call cname cargs) =
          .error e := by
        simp only [ScriptingEngine.runStatement, hlook, he]
      exact ⟨e, run_stops handlers env₀ pre post _ _ hpre hstep,
        Or.inl ⟨m, hm, hmget⟩⟩

/-- Claim C7 witness: assigning from an unbound variable fails the run with
UnknownVariable. -/
theorem claim_c7_unknown_variable_witness :
    (ScriptingEngine.run [] ([] : List Statement) []).error = none ∧
    (∃ n, Value.var n ∈ statementValues (Statement.assignment "a" (.var "x")) ∧
      envGet (ScriptingEngine.run [] ([] : List Statement) []).env n = none) ∧
    ∃ e, ScriptingEngine.run []
        (([] : List Statement) ++ Statement.assignment "a" (.var "x") :: []) [] =
        ⟨(ScriptingEngine.run [] ([] : List Statement) []).env,
          (ScriptingEngine.run [] ([] : List Statement) []).trace, some e⟩ ∧
      ((∃ n, e = .unknownVariable n ∧
          envGet (ScriptingEngine.run [] ([] : List Statement) []).env n = none) ∨
        ∃ cname cargs, Statement.assignment "a" (.var "x") = .call cname cargs ∧
          lookupHandler [] cname = none ∧ e = .unknownCall cname) :=
  ⟨rfl, ⟨"x", by simp [statementValues], rfl⟩,
    claim_c7_unknown_variable [] [] [] [] (Statement.assignment "a" (.var "x")) rfl
      ⟨"x", by simp [statementValues], rfl⟩⟩

/- ### Helper lemmas for the serialization round trip -/

theorem char_digit_toNat (d : Nat) (h : d < 10) :
    (Char.ofNat (48 + d)).toNat = 48 + d := by
  have hv : Nat.isValidChar (48 + d) := Or.inl (by omega)
  simp [Char.ofNat, hv, Char.toNat, Char.ofNatAux, UInt32.toNat, BitVec.toNat_ofNatLt]

theorem natPad_length (w n : Nat) : (natPad w n).length = w := by
  induction w generalizing n with
  | zero => rfl
  | succ w ih => simp [natPad, ih]

theorem readNat_append_singleton (a : List Char) (c : Char) :
    readNat (a ++ [c]) = 10 * readNat a + (c.toNat - 48) := by
  simp [readNat, List.foldl_append]

theorem readNat_natPad (w n : Nat) (h : n < 10 ^ w) : readNat (natPad w n) = n := by
  induction w generalizing n with
  | zero =>
    have hn : n = 0 := by simpa using h
    subst hn
    rfl
  | succ w ih =>
    rw [pow_succ] at h
    rw [natPad, readNat_append_singleton, ih (n / 10) (Nat.div_lt_of_lt_mul (by omega)),
      char_digit_toNat (n % 10) (Nat.mod_lt _ (by norm_num))]
    omega

theorem natPad_digit_chars (w n : Nat) :
    ∀ c ∈ natPad w n, 48 ≤ c.toNat ∧ c.toNat ≤ 57 := by
  induction w generalizing n with
  | zero => intro c hc; cases hc
  | succ w ih =>
    intro c hc
    rw [natPad] at hc
    rcases List.mem_append.mp hc with h1 | h2
    · exact ih (n / 10) c h1
    · have hc2 : c = Char.ofNat (48 + n % 10) := by simpa using h2
      subst hc2
      rw [char_digit_toNat (n % 10) (Nat.mod_lt _ (by norm_num))]
      have := Nat.mod_lt n (y := 10) (by norm_num)
      omega

theorem drop_len_cons (a l : List Char) (c : Char) (n : Nat) (h : a.length = n) :
    (a ++ c :: l).drop (n + 1) = l := by
  have he : a ++ c :: l = (a ++ [c]) ++ l := by simp
  rw [he]
  exact List.drop_left' (by simp [h])

/-- The positional decomposition of the `yyyy-MM-dd'T'HH:mm:ss` text: each
fixed-width field sits at the offset the ISO parser reads it from. -/
theorem toFormat_decomp (d : LuxonDateTime) :
    (TimeParameter.toFormatChars d).take 4 = natPad 4 d.year ∧
    ((TimeParameter.toFormatChars d).drop 5).take 2 = natPad 2 d.month ∧
    ((TimeParameter.toFormatChars d).drop 8).take 2 = natPad 2 d.day ∧
    (TimeParameter.toFormatChars d).drop 10 =
      'T' :: (natPad 2 d.hour ++ ':' :: (natPad 2 d.minute ++ ':' :: natPad 2 d.second)) ∧
    ((TimeParameter.toFormatChars d).drop 11).take 2 = natPad 2 d.hour ∧
    ((TimeParameter.toFormatChars d).drop 14).take 2 = natPad 2 d.minute ∧
    ((TimeParameter.toFormatChars d).drop 17).take 2 = natPad 2 d.second := by
  have h5 : (TimeParameter.toFormatChars d).drop 5 =
      natPad 2 d.month ++ '-' :: (natPad 2 d.day ++ 'T' :: (natPad 2 d.hour ++
        ':' :: (natPad 2 d.minute ++ ':' :: natPad 2 d.second))) :=
    drop_len_cons _ _ '-' 4 (natPad_length 4 d.year)
  have h8 : (TimeParameter.toFormatChars d).drop 8 =
      natPad 2 d.day ++ 'T' :: (natPad 2 d.hour ++
        ':' :: (natPad 2 d.minute ++ ':' :: natPad 2 d.second)) := by
    rw [show (8 : Nat) = 5 + 3 from rfl, ← List.drop_drop, h5]
    exact drop_len_cons _ _ '-' 2 (natPad_length 2 d.month)
  have h10 : (TimeParameter.toFormatChars d).drop 10 =
      'T' :: (natPad 2 d.hour ++ ':' :: (natPad 2 d.minute ++ ':' :: natPad 2 d.second)) := by
    rw [show (10 : Nat) = 8 + 2 from rfl, ← List.drop_drop, h8]
    exact List.drop_left' (natPad_length 2 d.day)
  have h11 : (TimeParameter.toFormatChars d).drop 11 =
      natPad 2 d.hour ++ ':' :: (natPad 2 d.minute ++ ':' :: natPad 2 d.second) := by
    rw [show (11 : Nat) = 10 + 1 from rfl, ← List.drop_drop, h10]
    rfl
  have h14 : (TimeParameter.toFormatChars d).drop 14 =
      natPad 2 d.minute ++ ':' :: natPad 2 d.second := by
    rw [show (14 : Nat) = 11 + 3 from rfl, ← List.drop_drop, h11]
    exact drop_len_cons _ _ ':' 2 (natPad_length 2 d.hour)
  have h17 : (TimeParameter.toFormatChars d).drop 17 = natPad 2 d.second := by
    rw [show (17 : Nat) = 14 + 3 from rfl, ← List.drop_drop, h14]
    exact drop_len_cons _ _ ':' 2 (natPad_length 2 d.minute)
  refine ⟨List.take_left' (natPad_length 4 d.year), ?_, ?_, h10, ?_, ?_, ?_⟩
  · rw [h5]; exact List.take_left' (natPad_length 2 d.month)
  · rw [h8]; exact List.take_left' (natPad_length 2 d.day)
  · rw [h11]; exact List.take_left' (natPad_length 2 d.hour)
  · rw [h14]; exact List.take_left' (natPad_length 2 d.minute)
  · rw [h17, ← natPad_length 2 d.second]; exact List.take_length _

/-- `luxon.DateTime.fromISO` inverts `TimeParameter.toFormat` on every date
whose fields fit the fixed-width rendering. -/
theorem luxonFromISO_toFormat (d : LuxonDateTime) (h : dateFieldsInRange d = true) :
    luxonFromISO (TimeParameter.toFormatChars d) = d := by
  obtain ⟨hy, hmo, hd, hh, hmi, hs⟩ :
      d.year < 10000 ∧ d.month < 100 ∧ d.day < 100 ∧
        d.hour < 100 ∧ d.minute < 100 ∧ d.second < 100 := by
    simpa [dateFieldsInRange, and_assoc] using h
  obtain ⟨e4, e5, e8, -, e11, e14, e17⟩ := toFormat_decomp d
  rw [luxonFromISO, e4, e5, e8, e11, e14, e17,
    readNat_natPad 4 d.year (by norm_num at hy ⊢; exact hy),
    readNat_natPad 2 d.month (by norm_num at hmo ⊢; exact hmo),
    readNat_natPad 2 d.day (by norm_num at hd ⊢; exact hd),
    readNat_natPad 2 d.hour (by norm_num at hh ⊢; exact hh),
    readNat_natPad 2 d.minute (by norm_num at hmi ⊢; exact hmi),
    readNat_natPad 2 d.second (by norm_num at hs ⊢; exact hs)]

/-- The `yyyy-MM-dd'T'HH:mm:ss` rendering never carries a timezone
designator, whatever the date: its characters are decimal digits and the
separators `-`, `T`, `:`, and after the ten-character date part no `+` or
`-` occurs at all. -/
theorem toFormat_no_zone (d : LuxonDateTime) :
    hasZoneDesignator (TimeParameter.toFormatChars d) = false := by
  have hchars : ∀ c ∈ TimeParameter.toFormatChars d,
      (48 ≤ c.toNat ∧ c.toNat ≤ 57) ∨ c = '-' ∨ c = 'T' ∨ c = ':' := by
    intro c hc
    rw [TimeParameter.toFormatChars] at hc
    rcases List.mem_append.mp hc with hc | hF
    · rcases List.mem_append.mp hc with hc | hE
      · rcases List.mem_append.mp hc with hc | hD
        · rcases List.mem_append.mp hc with hc | hC
          · rcases List.mem_append.mp hc with hA | hB
            · exact Or.inl (natPad_digit_chars 4 _ c hA)
            · rcases List.mem_cons.mp hB with rfl | hB
              · exact Or.inr (Or.inl rfl)
              · exact Or.inl (natPad_digit_chars 2 _ c hB)
          · rcases List.mem_cons.mp hC with rfl | hC
            · exact Or.inr (Or.inl rfl)
            · exact Or.inl (natPad_digit_chars 2 _ c hC)
        · rcases List.mem_cons.mp hD with rfl | hD
          · exact Or.inr (Or.inr (Or.inl rfl))
          · exact Or.inl (natPad_digit_chars 2 _ c hD)
      · rcases List.mem_cons.mp hE with rfl | hE
        · exact Or.inr (Or.inr (Or.inr rfl))
        · exact Or.inl (natPad_digit_chars 2 _ c hE)
    · rcases List.mem_cons.mp hF with rfl | hF
      · exact Or.inr (Or.inr (Or.inr rfl))
      · exact Or.inl (natPad_digit_chars 2 _ c hF)
  have hsuffix : ∀ c ∈ (TimeParameter.toFormatChars d).drop 10,
      (48 ≤ c.toNat ∧ c.toNat ≤ 57) ∨ c = 'T' ∨ c = ':' := by
    obtain ⟨-, -, -, h10, -, -, -⟩ := toFormat_decomp d
    intro c hc
    rw [h10] at hc
    rcases List.mem_cons.mp hc with rfl | hc
    · exact Or.inr (Or.inl rfl)
    rcases List.mem_append.mp hc with h | hc
    · exact Or.inl (natPad_digit_chars _ _ c h)
    rcases List.mem_cons.mp hc with rfl | hc
    · exact Or.inr (Or.inr rfl)
    rcases List.mem_append.mp hc with h | hc
    · exact Or.inl (natPad_digit_chars _ _ c h)
    rcases List.mem_cons.mp hc with rfl | hc
    · exact Or.inr (Or.inr rfl)
    exact Or.inl (natPad_digit_chars _ _ c hc)
  have hZ : ¬ ('Z' ∈ TimeParameter.toFormatChars d) := by
    intro hmem
    rcases hchars 'Z' hmem with ⟨-, hle⟩ | h | h | h
    · exact absurd hle (by decide)
    · exact absurd h (by decide)
    · exact absurd h (by decide)
    · exact absurd h (by decide)
  have hplus : ¬ ('+' ∈ (TimeParameter.toFormatChars d).drop 10) := by
    intro hmem
    rcases hsuffix '+' hmem with ⟨hge, -⟩ | h | h
    · exact absurd hge (by decide)
    · exact absurd h (by decide)
    · exact absurd h (by decide)
  have hminus : ¬ ('-' ∈ (TimeParameter.toFormatChars d).drop 10) := by
    intro hmem
    rcases hsuffix '-' hmem with ⟨hge, -⟩ | h | h
    · exact absurd hge (by decide)
    · exact absurd h (by decide)
    · exact absurd h (by decide)
  rw [hasZoneDesignator]
  simp [hZ, hplus, hminus]

theorem deserializeValue_serializeValue (v : Value) (h : valueRestorable v = true) :
    deserializeValue (serializeValue v) = some v := by
  cases v with
  | timeParameter t =>
    cases t with
    | date dt =>
      have hdt : dateFieldsInRange dt = true := by
        simpa [valueRestorable, isParameters, valueDatesInRange] using h
      simp [serializeValue, deserializeValue, luxonFromISO_toFormat dt hdt]
    | keyword s => rfl
  | symbolArray es =>
    show some (Value.symbolArray
        ((es.map fun e => (e.value, e.separator)).map fun e => ⟨e.1, e.2⟩)) =
      some (Value.symbolArray es)
    rw [List.map_map]
    exact congrArg (fun l => some (Value.symbolArray l)) (List.map_id es)
  | parameters ps => simp [valueRestorable, isParameters] at h
  | numeric q => rfl
  | bool b => rfl
  | timeFrame q => rfl
  | offset o u => rfl
  | symbol s => rfl
  | str s => rfl
  | parameter p => rfl
  | var n => rfl

/- ### Claim C2 — serialization round trip and the timestamp text form -/

/-- Claim C2 counterexample: the serialized textual form of the concrete
`TimeParameter` for 2024-01-01 is exactly `2024-01-01T00:00:00`, which
carries no timezone designator — the claimed "timezone-explicit textual
form" does not hold of the code, whose format string `yyyy-MM-dd'T'HH:mm:ss`
has no zone token; and a `Parameters` environment entry (as bound by
`$p = {x: 1}`) does not round-trip to an equal value, because the
`Parameters` class is absent from the constructors `initializeSerialization`
registers in `KVIN.userCtors`, so its reconstruction fails. -/
theorem claim_c2_counterexample :
    serializeValue (.timeParameter (.date (ScriptingEngine.createDate 2024 1 1))) =
      .tpDate ("2024-01-01T00:00:00".toList) ∧
    hasZoneDesignator ("2024-01-01T00:00:00".toList) = false ∧
    deserializeValue (serializeValue (Value.parameters
        [⟨some "x", some 1, none, none, none, none, none⟩])) ≠
      some (Value.parameters [⟨some "x", some 1, none, none, none, none, none⟩]) := by
  refine ⟨rfl, by decide, ?_⟩
  simp [serializeValue, deserializeValue]

/-- Claim C2 (amended): `deserialize(serialize(env))` reproduces the
environment exactly — sentinel `TimeParameter` keywords included — whenever
the environment holds no `Parameters` entry (the one value class
`initializeSerialization` leaves out of `KVIN.userCtors`, so such an entry
cannot be rebuilt) and every stored concrete date fits the fixed-width
rendering (as every engine-constructed date does); a concrete
`TimeParameter` is serialized as the canonical but zone-less wall-clock text
`yyyy-MM-dd'T'HH:mm:ss`, which never carries a timezone designator, and its
restoration parses those wall-clock fields back, so the restored value is
calendar-identical to the original. -/
theorem claim_c2_serialization_roundtrip (env : Env) (h : envRestorable env = true) :
    ScriptingEngine.deserializeVariables (ScriptingEngine.serializeVariables env) =
      some env ∧
    (∀ dt : LuxonDateTime,
      serializeValue (.timeParameter (.date dt)) =
        .tpDate (TimeParameter.toFormatChars dt) ∧
      hasZoneDesignator (TimeParameter.toFormatChars dt) = false) ∧
    (∀ dt : LuxonDateTime, dateFieldsInRange dt = true →
      deserializeValue (serializeValue (.timeParameter (.date dt))) =
        some (.timeParameter (.date dt))) := by
  refine ⟨?_, fun dt => ⟨rfl, toFormat_no_zone dt⟩, ?_⟩
  · revert h
    induction env with
    | nil => intro h; rfl
    | cons p rest ih =>
      intro h
      simp only [envRestorable, List.all_cons, Bool.and_eq_true] at h
      have hser : ScriptingEngine.serializeVariables (p :: rest) =
          (p.1, serializeValue p.2) :: ScriptingEngine.serializeVariables rest := rfl
      rw [hser, ScriptingEngine.deserializeVariables]
      simp only [deserializeValue_serializeValue p.2 h.1]
      rw [ih h.2]
  · intro dt hdt
    simp [serializeValue, deserializeValue, luxonFromISO_toFormat dt hdt]

/-- Claim C2 witness: a three-entry environment holding a concrete
`TimeParameter`, a sentinel `TimeParameter`, and a `Symbol` round-trips
unchanged. -/
theorem claim_c2_serialization_roundtrip_witness :
    envRestorable
      [("d", Value.timeParameter (.date (ScriptingEngine.createDate 2024 1 1))),
        ("s", .timeParameter (.keyword "first")),
        ("es", .symbol ⟨"ES", true⟩)] = true ∧
    (ScriptingEngine.deserializeVariables (ScriptingEngine.serializeVariables
        [("d", Value.timeParameter (.date (ScriptingEngine.createDate 2024 1 1))),
          ("s", .timeParameter (.keyword "first")),
          ("es", .symbol ⟨"ES", true⟩)]) =
      some [("d", Value.timeParameter (.date (ScriptingEngine.createDate 2024 1 1))),
        ("s", .timeParameter (.keyword "first")),
        ("es", .symbol ⟨"ES", true⟩)]) :=
  ⟨by decide,
    (claim_c2_serialization_roundtrip
      [("d", Value.timeParameter (.date (ScriptingEngine.createDate 2024 1 1))),
        ("s", .timeParameter (.keyword "first")),
        ("es", .symbol ⟨"ES", true⟩)] (by decide)).1⟩
